import Mathlib

/-!
A shallow embedding of the mod_crowdsec Apache module (src/mod_crowdsec.c)
and proofs about its decision engine, cache, URL parser and config merge.

C strings are modelled as `List Char` (no interior NUL). Apache integer
status codes are modelled as `Int` (`OK` is 0, `DECLINED` is -1). External
collaborators (the socache provider, the global mutex, the expression
evaluator, mod_proxy's subrequest machinery and APR's url-escaping) are
modelled as oracle fields of an `Env` record: the module code only branches
on their outcomes, which is exactly what the embedding records.
-/

namespace Crowdsec

/-- Apache `OK`. -/
def OK : Int := 0

/-- Apache `DECLINED`. -/
def DECLINED : Int := -1

/-- `HTTP_OK`. -/
def HTTP_OK : Int := 200

/-- `HTTP_NOT_FOUND`. -/
def HTTP_NOT_FOUND : Int := 404

/-- `HTTP_INTERNAL_SERVER_ERROR`. -/
def HTTP_INTERNAL_SERVER_ERROR : Int := 500

/-- `HTTP_TOO_MANY_REQUESTS`. -/
def HTTP_TOO_MANY_REQUESTS : Int := 429

/-- `HTTP_FORBIDDEN`. -/
def HTTP_FORBIDDEN : Int := 403

/-- `apr_time_from_sec`: APR times are in microseconds. -/
def apr_time_from_sec (s : Nat) : Nat := s * 1000000

/-- `CROWDSEC_CACHE_TIMEOUT_DEFAULT` (seconds). -/
def CROWDSEC_CACHE_TIMEOUT_DEFAULT : Nat := 60

/-- The literal string `"null"`, the not-blocked sentinel. -/
def nullStr : List Char := "null".data

/-- `struct url` from mod_crowdsec.c: `path` is a nullable `const char *`. -/
structure UrlParts where
  scheme : List Char
  authority : List Char
  path : Option (List Char)
deriving DecidableEq

/-- Result of `find_base_lapi_url`: either a parsed url or the error
message written through the `err` out-parameter. -/
inductive UrlParseResult where
  | parsed (u : UrlParts)
  | failed (msg : List Char)
deriving DecidableEq

def errNoDoubleSlash : List Char :=
  "invalid lapi base url: \"//\" after scheme not found".data

def errNoScheme : List Char :=
  "invalid lapi base url: scheme is missing".data

def errNoAuthority : List Char :=
  "invalid lapi base url: authority is missing".data

/-- `tolower` on ASCII, as used by `apr_cstr_casecmpn`. -/
def tolowerChar (c : Char) : Char :=
  if 'A' ≤ c ∧ c ≤ 'Z' then Char.ofNat (c.toNat + 32) else c

/-- `apr_cstr_casecmpn(s, "//", 2) == 0`: the first two characters of `s`
exist and case-fold to `/` `/` (comparison stops at the NUL, so a string
shorter than 2 fails). -/
def matchesDoubleSlash : List Char → Bool
  | a :: b :: _ => tolowerChar a = '/' && tolowerChar b = '/'
  | _ => false

/-- The scheme scan of `find_base_lapi_url`: the loop runs with
`scheme == NULL` until the first `':'`; it returns the characters before
the colon and those after it, or `none` when the string has no colon. -/
def findColon : List Char → Option (List Char × List Char)
  | [] => none
  | c :: cs =>
    if c = ':' then some ([], cs)
    else
      match findColon cs with
      | some (pre, post) => some (c :: pre, post)
      | none => none

/-- The authority scan of `find_base_lapi_url`: starting at
`authority_start_idx`, the loop runs with `authority == NULL` until the
first `'/'`. On finding it the loop does `i--`, so the very next
iteration takes the `path` branch at the same `'/'`: the path suffix
therefore starts with that `'/'`. Returns the characters before the
first slash and, when a slash exists, the suffix from the slash on. -/
def splitAtSlash : List Char → List Char × Option (List Char)
  | [] => ([], none)
  | c :: cs =>
    if c = '/' then ([], some (c :: cs))
    else
      let (pre, post) := splitAtSlash cs
      (c :: pre, post)

/-- `find_base_lapi_url` from mod_crowdsec.c. -/
def find_base_lapi_url (url : List Char) : UrlParseResult :=
  match findColon url with
  | none => .failed errNoScheme
  | some (scheme, afterColon) =>
    if matchesDoubleSlash afterColon then
      match afterColon with
      | _ :: _ :: afterSlashes =>
        match splitAtSlash afterSlashes with
        | (authority, some pathFromSlash) =>
          .parsed ⟨scheme, authority, some pathFromSlash⟩
        | (_, none) =>
          if afterSlashes = [] then .failed errNoAuthority
          else .parsed ⟨scheme, afterSlashes, none⟩
      | _ => .failed errNoDoubleSlash
    else .failed errNoDoubleSlash

/-- `crowdsec_fallback` enum; `apr_pcalloc` zero-fill yields `CROWDSEC_FAIL`. -/
inductive CrowdsecFallback where
  | fail
  | block
  | allow
deriving DecidableEq

/-- `crowdsec_config_rec` (per-directory config). `blockedhttpcode` is
declared with the `http_code` enum type but is an `int` underneath:
`apr_pcalloc` zero-initializes it to 0, a value outside the enum, so it
is modelled as `Int`. `location` is a nullable compiled-expression
pointer, modelled as an opaque identifier. -/
structure CrowdsecConfigRec where
  response : Option (List Char)
  location : Option Nat
  enable : Bool
  fallback : CrowdsecFallback
  blockedhttpcode : Int
  enable_set : Bool
  fallback_set : Bool
  location_set : Bool
  blockedhttpcode_set : Bool
deriving DecidableEq

/-- `crowdsec_server_rec` (per-server config). The socache provider and
instance are opaque handles modelled by identifiers; `cache_mutex` is a
nullable pointer modelled by its non-NULL-ness. -/
structure CrowdsecServerRec where
  url : Option UrlParts
  key : Option (List Char)
  hasCacheMutex : Bool
  cache_provider : Option Nat
  cache_instance : Option Nat
  cache_timeout : Nat
  url_set : Bool
  key_set : Bool
  cache_provider_set : Bool
  cache_timeout_set : Bool
deriving DecidableEq

/-- `create_crowdsec_dir_config`: `apr_pcalloc` zero-fills every field.
In particular `blockedhttpcode` is 0 — not 429. -/
def create_crowdsec_dir_config : CrowdsecConfigRec :=
  { response := none
    location := none
    enable := false
    fallback := .fail
    blockedhttpcode := 0
    enable_set := false
    fallback_set := false
    location_set := false
    blockedhttpcode_set := false }

/-- `create_crowdsec_server_config`: zero-filled except `cache_timeout`,
set to 60 seconds. -/
def create_crowdsec_server_config : CrowdsecServerRec :=
  { url := none
    key := none
    hasCacheMutex := false
    cache_provider := none
    cache_instance := none
    cache_timeout := apr_time_from_sec CROWDSEC_CACHE_TIMEOUT_DEFAULT
    url_set := false
    key_set := false
    cache_provider_set := false
    cache_timeout_set := false }

/-- `merge_crowdsec_dir_config`. The merged record is `apr_pcalloc`ed, so
`response` (never merged) is NULL. -/
def merge_crowdsec_dir_config (base add : CrowdsecConfigRec) :
    CrowdsecConfigRec :=
  { response := none
    enable := if add.enable_set = false then base.enable else add.enable
    enable_set := add.enable_set || base.enable_set
    fallback := if add.fallback_set = false then base.fallback else add.fallback
    fallback_set := add.fallback_set || base.fallback_set
    location := if add.location_set = false then base.location else add.location
    location_set := add.location_set || base.location_set
    blockedhttpcode :=
      if add.blockedhttpcode_set = false then base.blockedhttpcode
      else add.blockedhttpcode
    blockedhttpcode_set := add.blockedhttpcode_set || base.blockedhttpcode_set }

/-- `merge_crowdsec_server_config`. `cache_mutex` is not merged (it is
created later, in the post_config hook), so the merged record's mutex is
NULL. `cache_instance` is selected by `cache_provider_set`, the provider
field's flag. -/
def merge_crowdsec_server_config (base add : CrowdsecServerRec) :
    CrowdsecServerRec :=
  { url := if add.url_set = false then base.url else add.url
    url_set := add.url_set || base.url_set
    key := if add.key_set = false then base.key else add.key
    key_set := add.key_set || base.key_set
    hasCacheMutex := false
    cache_provider :=
      if add.cache_provider_set = false then base.cache_provider
      else add.cache_provider
    cache_instance :=
      if add.cache_provider_set = false then base.cache_instance
      else add.cache_instance
    cache_provider_set := add.cache_provider_set || base.cache_provider_set
    cache_timeout :=
      if add.cache_timeout_set = false then base.cache_timeout
      else add.cache_timeout
    cache_timeout_set := add.cache_timeout_set || base.cache_timeout_set }

/-- Result of a configuration directive handler: `NULL` (success, with the
updated config) or an error message string. -/
inductive CmdResult where
  | ok (conf : CrowdsecConfigRec)
  | err (msg : List Char)
deriving DecidableEq

/-- Whether a directive handler rejected its argument. -/
def CmdResult.isErr : CmdResult → Bool
  | .ok _ => false
  | .err _ => true

/-- `set_crowdsec` (the `Crowdsec on|off` flag directive). -/
def set_crowdsec (conf : CrowdsecConfigRec) (flag : Bool) : CrowdsecConfigRec :=
  { conf with enable := flag, enable_set := true }

/-- `isspace` for the ASCII characters C's `atoi` skips. -/
def isSpaceChar (c : Char) : Bool :=
  c = ' ' || c = '\t' || c = '\n' || (c.toNat = 11) || (c.toNat = 12) || c = '\r'

/-- Digit-accumulation loop of `atoi`. -/
def atoiDigits : List Char → Int → Int
  | [], acc => acc
  | c :: cs, acc =>
    if c.isDigit then atoiDigits cs (acc * 10 + (c.toNat - 48 : Int))
    else acc

/-- C `atoi`: skip leading whitespace, optional sign, then a digit prefix. -/
def atoi (s : List Char) : Int :=
  match s.dropWhile isSpaceChar with
  | '-' :: rest => - atoiDigits rest 0
  | '+' :: rest => atoiDigits rest 0
  | rest => atoiDigits rest 0

def errBadBlockedCode : List Char :=
  "Unknown CrowdsecBlockedHTTPCode. Valid values are 403, 500 and 429.".data

/-- `set_crowdsec_blockedhttpcode`: the argument's `atoi` value must be in
the allow-list 403 / 500 / 429, otherwise the directive is rejected with
an error message. -/
def set_crowdsec_blockedhttpcode (conf : CrowdsecConfigRec)
    (arg : List Char) : CmdResult :=
  let code := atoi arg
  if code = HTTP_FORBIDDEN ∨ code = HTTP_INTERNAL_SERVER_ERROR ∨
      code = HTTP_TOO_MANY_REQUESTS then
    .ok { conf with blockedhttpcode := code, blockedhttpcode_set := true }
  else
    .err errBadBlockedCode

/-- `crowdsec_cache_key`: the client IP, space-padded on the right to 4
bytes when shorter than 4 (the shmcb backend rejects shorter keys). -/
def crowdsec_cache_key (ip : List Char) : List Char :=
  if ip.length < 4 then ip ++ List.replicate (4 - ip.length) ' '
  else ip

/-- The request fields the module reads: `r->main` (non-NULL when this is
a subrequest) and `r->useragent_ip`. -/
structure RequestInfo where
  main : Bool
  ip : List Char
deriving DecidableEq

/-- One entry of the shared object cache. -/
structure CacheEntry where
  key : List Char
  value : List Char
  expiry : Nat
deriving DecidableEq

/-- The shared object cache's contents. -/
def CacheState := List CacheEntry
deriving DecidableEq

/-- The socache provider's `store`: sets `key` to `value` with `expiry`
(at most one entry per key). -/
def storeEntry (cache : CacheState) (key value : List Char) (expiry : Nat) :
    CacheState :=
  ⟨key, value, expiry⟩ ::
    (cache : List CacheEntry).filter (fun e => e.key ≠ key)

/-- Outcome of the socache provider's `retrieve` call. -/
inductive RetrieveOutcome where
  | found (val : List Char)
  | notfound
  | err
deriving DecidableEq

/-- Outcome of `apr_global_mutex_trylock`. -/
inductive MutexOutcome where
  | acquired
  | busy
  | err
deriving DecidableEq

/-- Outcome of `ap_expr_str_exec` on the `CrowdsecLocation` expression. -/
inductive ExprOutcome where
  | evalErr (msg : List Char)
  | evalOk (location : List Char)
deriving DecidableEq

/-- Oracle outcomes of the external collaborators touched during one
request: APR time, the socache provider, the global mutex, mod_proxy's
subrequest run, the CROWDSEC capture filter's deposit, the expression
evaluator and `ap_escape_urlencoded`. -/
structure Env where
  now : Nat
  retrieve : RetrieveOutcome
  mutex : MutexOutcome
  storeOk : Bool
  subreqCreateStatus : Int
  runStatus : Int
  subreqStatus : Int
  captured : Option (List Char)
  exprEval : ExprOutcome
  escapedIp : List Char
deriving DecidableEq

/-- `crowdsec_from_cache`: without a provider, report nothing; otherwise
a `retrieve` NOTFOUND or error is treated as absence and a success yields
the cached value. -/
def crowdsec_from_cache (sconf : CrowdsecServerRec) (env : Env) :
    Option (List Char) :=
  if sconf.cache_provider = none then none
  else
    match env.retrieve with
    | .found v => some v
    | .notfound => none
    | .err => none

/-- What `crowdsec_to_cache` did: the `store` call it issued (key, expiry,
value), whether the mutex was released, and the cache afterwards. The C
function returns `void`: no outcome reaches the caller. -/
structure CachePutResult where
  storeCall : Option (List Char × Nat × List Char)
  released : Bool
  cacheAfter : CacheState
deriving DecidableEq

/-- `crowdsec_to_cache`: no mutex means no write; a busy or failed
try-acquire abandons the write before any `store`; once acquired, the
entry is stored with expiry `now + cache_timeout` and the mutex is
released whether or not the store succeeded. -/
def crowdsec_to_cache (sconf : CrowdsecServerRec) (r : RequestInfo)
    (env : Env) (response : List Char) (cache : CacheState) : CachePutResult :=
  if sconf.hasCacheMutex = false then ⟨none, false, cache⟩
  else
    match env.mutex with
    | .busy => ⟨none, false, cache⟩
    | .err => ⟨none, false, cache⟩
    | .acquired =>
      let key := crowdsec_cache_key r.ip
      let expiry := env.now + sconf.cache_timeout
      let after := if env.storeOk then storeEntry cache key response expiry
                   else cache
      ⟨some (key, expiry, response), true, after⟩

/-- The target url `{scheme}://{authority}/v1/decisions?ip={escaped ip}`
built in `crowdsec_proxy`. -/
def targetUrl (u : UrlParts) (env : Env) : List Char :=
  u.scheme ++ ("://".data) ++ u.authority ++ ("/v1/decisions?ip=".data) ++
    env.escapedIp

/-- The classification body `crowdsec_proxy` synthesizes under the BLOCK
fallback: `[\x7b"error":"'{target}' returned {status}"\x7d]`. -/
def synthBlockBody (target : List Char) (status : Int) : List Char :=
  ("[\x7b\"error\":\"'".data) ++ target ++ ("' returned ".data) ++
    (toString status).data ++ ("\"\x7d]".data)

/-- Result of `crowdsec_proxy`: a non-OK status returned to the caller,
or OK together with the string left in the `response` out-parameter. -/
inductive ProxyResult where
  | failStatus (code : Int)
  | okResponse (body : List Char)
deriving DecidableEq

/-- `crowdsec_proxy`: reject a failed subrequest creation with its status;
map a 404 (as run status, or as response status under an OK run) to a
fatal 500; map any other non-OK run status through the fallback policy
(FAIL → 500, BLOCK → synthesized blocked body, ALLOW → `"null"`); on an
OK run, a never-recorded response is a fatal 500, otherwise the captured
body is the classification. -/
def crowdsec_proxy (conf : CrowdsecConfigRec) (u : UrlParts) (env : Env) :
    ProxyResult :=
  if env.subreqCreateStatus ≠ HTTP_OK then .failStatus env.subreqCreateStatus
  else if env.runStatus = HTTP_NOT_FOUND ∨
      (env.runStatus = OK ∧ env.subreqStatus = HTTP_NOT_FOUND) then
    .failStatus HTTP_INTERNAL_SERVER_ERROR
  else if env.runStatus ≠ OK then
    match conf.fallback with
    | .fail => .failStatus HTTP_INTERNAL_SERVER_ERROR
    | .block => .okResponse (synthBlockBody (targetUrl u env) env.runStatus)
    | .allow => .okResponse nullStr
  else
    match env.captured with
    | none => .failStatus HTTP_INTERNAL_SERVER_ERROR
    | some body => .okResponse body

/-- The classification tail of `crowdsec_query`: return status plus the
`ap_custom_response(code, location)` call, if any. -/
def classifyResponse (conf : CrowdsecConfigRec) (env : Env)
    (response : List Char) : Int × Option (Int × List Char) :=
  if response = nullStr then (OK, none)
  else
    match conf.location with
    | some _ =>
      match env.exprEval with
      | .evalErr _ => (HTTP_INTERNAL_SERVER_ERROR, none)
      | .evalOk loc => (conf.blockedhttpcode, some (conf.blockedhttpcode, loc))
    | none => (conf.blockedhttpcode, none)

/-- What one `crowdsec_query` call did: its return status, any
`ap_custom_response` it issued, the cache afterwards, whether the cache
was consulted, whether the upstream proxy call was made, and the `store`
call issued, if any. -/
structure QueryResult where
  status : Int
  custom : Option (Int × List Char)
  cacheAfter : CacheState
  cacheLookup : Bool
  proxyCalled : Bool
  storeCall : Option (List Char × Nat × List Char)
deriving DecidableEq

/-- `crowdsec_query`: decline subrequests and servers without a
configured url; otherwise try the cache, fall through to the proxy on a
miss, write any OK proxy response back to the cache, and classify. -/
def crowdsec_query (sconf : CrowdsecServerRec) (conf : CrowdsecConfigRec)
    (r : RequestInfo) (env : Env) (cache : CacheState) : QueryResult :=
  match sconf.url with
  | none => ⟨DECLINED, none, cache, false, false, none⟩
  | some u =>
    if r.main then ⟨DECLINED, none, cache, false, false, none⟩
    else
      match crowdsec_from_cache sconf env with
      | some response =>
        let (st, cu) := classifyResponse conf env response
        ⟨st, cu, cache, true, false, none⟩
      | none =>
        match crowdsec_proxy conf u env with
        | .failStatus code => ⟨code, none, cache, true, true, none⟩
        | .okResponse response =>
          let put := crowdsec_to_cache sconf r env response cache
          let (st, cu) := classifyResponse conf env response
          ⟨st, cu, put.cacheAfter, true, true, put.storeCall⟩

/-- Result of the access-checker hook. -/
structure AccessResult where
  status : Int
  query : Option QueryResult
deriving DecidableEq

/-- `crowdsec_check_access`: decline subrequests and disabled routes;
otherwise run the query, turning its OK into DECLINED and passing any
other status through. -/
def crowdsec_check_access (sconf : CrowdsecServerRec)
    (conf : CrowdsecConfigRec) (r : RequestInfo) (env : Env)
    (cache : CacheState) : AccessResult :=
  if r.main ∨ conf.enable = false then ⟨DECLINED, none⟩
  else
    let q := crowdsec_query sconf conf r env cache
    if q.status = OK then ⟨DECLINED, some q⟩ else ⟨q.status, some q⟩

/-- `crowdsec_out_filter`: flatten the brigade into a NUL-terminated
string and set it aside in the per-dir config's `response` field — a
zero-length brigade is recorded as the empty string, not left NULL. -/
def crowdsec_out_filter (conf : CrowdsecConfigRec)
    (brigade : List (List Char)) : CrowdsecConfigRec :=
  { conf with response := some (List.flatten brigade) }

/-! Concrete fixtures used to evaluate the model at specific inputs. -/

/-- A parsed `CrowdsecURL http://localhost:8080`. -/
def uFX : UrlParts := ⟨"http".data, "localhost:8080".data, none⟩

/-- A server scope with a url, a socache provider and a mutex configured. -/
def sconfFX : CrowdsecServerRec :=
  { create_crowdsec_server_config with
      url := some uFX
      url_set := true
      hasCacheMutex := true
      cache_provider := some 0
      cache_instance := some 0
      cache_provider_set := true }

/-- A main (non-sub) request from `1.2.3.4`. -/
def reqFX : RequestInfo := ⟨false, "1.2.3.4".data⟩

/-- Baseline oracle outcomes: cache miss, free mutex, successful store,
healthy subrequest that captured the body `"null"`. -/
def envBase : Env :=
  { now := 1000
    retrieve := .notfound
    mutex := .acquired
    storeOk := true
    subreqCreateStatus := 200
    runStatus := 0
    subreqStatus := 200
    captured := some nullStr
    exprEval := .evalOk ("/blocked.html".data)
    escapedIp := "1.2.3.4".data }

/-- A blocked-decision body, as the service would return it. -/
def blockedBody : List Char := "[\x7b\"scenario\":\"ban\"\x7d]".data

/-- Cache miss and the upstream run failing with 502. -/
def envFallbackFX : Env := { envBase with runStatus := 502, captured := none }

/-- Cache hit on a blocked classification. -/
def envHitBlockedFX : Env := { envBase with retrieve := .found blockedBody }

/-- Cache hit on the `"null"` sentinel. -/
def envHitNullFX : Env := { envBase with retrieve := .found nullStr }

/-- Cache miss and the upstream run failing with 404. -/
def env404FX : Env := { envBase with runStatus := 404, captured := none }

/-- Cache miss, healthy run, zero-length captured body. -/
def envEmptyFX : Env := { envBase with captured := some [] }

/-- `Crowdsec on` over an otherwise default route config. -/
def confDefaultEnabled : CrowdsecConfigRec :=
  set_crowdsec create_crowdsec_dir_config true

/-- Enabled route with fallback `block` and blocked code 429. -/
def confBlockFB : CrowdsecConfigRec :=
  { confDefaultEnabled with
      fallback := .block
      fallback_set := true
      blockedhttpcode := 429
      blockedhttpcode_set := true }

/-- Enabled route with fallback `allow` and blocked code 429. -/
def confAllowFB : CrowdsecConfigRec :=
  { confBlockFB with fallback := .allow }

/-! Helper lemmas. -/

lemma if_set_bias {α : Type} (flag : Bool) (b a : α) :
    (if flag = false then b else a) = (if flag then a else b) := by
  cases flag <;> rfl

lemma or_set_bias (flag fb : Bool) :
    (flag || fb) = (if flag then true else fb) := by
  cases flag <;> rfl

lemma findColon_append (scheme rest : List Char) (h : ':' ∉ scheme) :
    findColon (scheme ++ ':' :: rest) = some (scheme, rest) := by
  induction scheme with
  | nil => simp [findColon]
  | cons c cs ih =>
    have hc : c ≠ ':' := fun hx => h (hx ▸ List.mem_cons_self c cs)
    have hcs : ':' ∉ cs := fun hx => h (List.mem_cons_of_mem c hx)
    simp [findColon, hc, ih hcs]

lemma splitAtSlash_append (authority rest : List Char) (h : '/' ∉ authority) :
    splitAtSlash (authority ++ '/' :: rest) = (authority, some ('/' :: rest)) := by
  induction authority with
  | nil => simp [splitAtSlash]
  | cons c cs ih =>
    have hc : c ≠ '/' := fun hx => h (hx ▸ List.mem_cons_self c cs)
    have hcs : '/' ∉ cs := fun hx => h (List.mem_cons_of_mem c hx)
    simp [splitAtSlash, hc, ih hcs]

lemma matchesDoubleSlash_slashes (l : List Char) :
    matchesDoubleSlash ('/' :: '/' :: l) = true := rfl

/-! Theorems about the claims. -/

/-- C8: `crowdsec_cache_key` always returns a key of length at least 4;
an IP shorter than 4 characters yields exactly 4 bytes, the IP bytes
followed by space padding; an IP of length at least 4 is returned as is,
with its own length. -/
theorem cache_key_pad_invariant (ip : List Char) :
    4 ≤ (crowdsec_cache_key ip).length ∧
    (ip.length < 4 →
      (crowdsec_cache_key ip).length = 4 ∧
      crowdsec_cache_key ip = ip ++ List.replicate (4 - ip.length) ' ') ∧
    (4 ≤ ip.length →
      crowdsec_cache_key ip = ip ∧
      (crowdsec_cache_key ip).length = ip.length) := by
  by_cases h : ip.length < 4 <;>
    simp [crowdsec_cache_key, h] <;> omega

/-- Witness for C8 at the concrete IPv6 loopback IP `::1`. -/
theorem cache_key_pad_invariant_witness :
    (crowdsec_cache_key ("::1".data)).length = 4 ∧
    crowdsec_cache_key ("::1".data) = ("::1 ".data) := by
  have h := (cache_key_pad_invariant ("::1".data)).2.1 (by decide)
  exact ⟨h.1, by rw [h.2]; decide⟩

/-- C6: both config merges are right-biased independently per field: a
field explicitly set in `add` wins and its flag becomes set; otherwise
the field and its flag come from `base`. (`cache_instance` travels with
the provider's flag, and the post-config-owned `cache_mutex` is not
merged.) -/
theorem merge_right_bias (base add : CrowdsecConfigRec)
    (sbase sadd : CrowdsecServerRec) :
    ((merge_crowdsec_dir_config base add).enable =
        (if add.enable_set then add.enable else base.enable) ∧
      (merge_crowdsec_dir_config base add).enable_set =
        (if add.enable_set then true else base.enable_set)) ∧
    ((merge_crowdsec_dir_config base add).fallback =
        (if add.fallback_set then add.fallback else base.fallback) ∧
      (merge_crowdsec_dir_config base add).fallback_set =
        (if add.fallback_set then true else base.fallback_set)) ∧
    ((merge_crowdsec_dir_config base add).location =
        (if add.location_set then add.location else base.location) ∧
      (merge_crowdsec_dir_config base add).location_set =
        (if add.location_set then true else base.location_set)) ∧
    ((merge_crowdsec_dir_config base add).blockedhttpcode =
        (if add.blockedhttpcode_set then add.blockedhttpcode
         else base.blockedhttpcode) ∧
      (merge_crowdsec_dir_config base add).blockedhttpcode_set =
        (if add.blockedhttpcode_set then true else base.blockedhttpcode_set)) ∧
    ((merge_crowdsec_server_config sbase sadd).url =
        (if sadd.url_set then sadd.url else sbase.url) ∧
      (merge_crowdsec_server_config sbase sadd).url_set =
        (if sadd.url_set then true else sbase.url_set)) ∧
    ((merge_crowdsec_server_config sbase sadd).key =
        (if sadd.key_set then sadd.key else sbase.key) ∧
      (merge_crowdsec_server_config sbase sadd).key_set =
        (if sadd.key_set then true else sbase.key_set)) ∧
    ((merge_crowdsec_server_config sbase sadd).cache_provider =
        (if sadd.cache_provider_set then sadd.cache_provider
         else sbase.cache_provider) ∧
      (merge_crowdsec_server_config sbase sadd).cache_instance =
        (if sadd.cache_provider_set then sadd.cache_instance
         else sbase.cache_instance) ∧
      (merge_crowdsec_server_config sbase sadd).cache_provider_set =
        (if sadd.cache_provider_set then true else sbase.cache_provider_set)) ∧
    ((merge_crowdsec_server_config sbase sadd).cache_timeout =
        (if sadd.cache_timeout_set then sadd.cache_timeout
         else sbase.cache_timeout) ∧
      (merge_crowdsec_server_config sbase sadd).cache_timeout_set =
        (if sadd.cache_timeout_set then true else sbase.cache_timeout_set)) :=
  ⟨⟨if_set_bias _ _ _, or_set_bias _ _⟩,
   ⟨if_set_bias _ _ _, or_set_bias _ _⟩,
   ⟨if_set_bias _ _ _, or_set_bias _ _⟩,
   ⟨if_set_bias _ _ _, or_set_bias _ _⟩,
   ⟨if_set_bias _ _ _, or_set_bias _ _⟩,
   ⟨if_set_bias _ _ _, or_set_bias _ _⟩,
   ⟨if_set_bias _ _ _, if_set_bias _ _ _, or_set_bias _ _⟩,
   ⟨if_set_bias _ _ _, or_set_bias _ _⟩⟩

/-- C5 counterexample: on `s://a/b` the parser's path is `/b` — the
suffix beginning at the slash — not `b` as the claim states. -/
theorem url_parser_path_counterexample :
    find_base_lapi_url ("s://a/b".data) ≠
      .parsed ⟨"s".data, "a".data, some ("b".data)⟩ ∧
    find_base_lapi_url ("s://a/b".data) =
      .parsed ⟨"s".data, "a".data, some ("/b".data)⟩ ∧
    find_base_lapi_url ("s://a/".data) =
      .parsed ⟨"s".data, "a".data, some ("/".data)⟩ := by
  decide

/-- C5 (amended): for `scheme ++ "://" ++ authority ++ "/" ++ rest` with
a non-empty colon-free scheme and a slash-free authority, parsing
succeeds with the scheme and authority unchanged and the path equal to
the suffix beginning at that `/` (so `'/' :: rest`, which is `"/"` — not
absent — when `rest` is empty); and `scheme ++ "://"` alone fails with
the missing-authority error. -/
theorem find_base_lapi_url_form (scheme authority rest : List Char)
    (_hs : scheme ≠ []) (hcolon : ':' ∉ scheme) (hslash : '/' ∉ authority) :
    find_base_lapi_url
        (scheme ++ ':' :: '/' :: '/' :: (authority ++ '/' :: rest)) =
      .parsed ⟨scheme, authority, some ('/' :: rest)⟩ ∧
    find_base_lapi_url (scheme ++ [':', '/', '/']) =
      .failed errNoAuthority := by
  constructor
  · simp [find_base_lapi_url, findColon_append _ _ hcolon,
      matchesDoubleSlash_slashes, splitAtSlash_append _ _ hslash]
  · simp [find_base_lapi_url, findColon_append _ _ hcolon,
      matchesDoubleSlash_slashes, splitAtSlash]

/-- Witness for C5's amended statement at `s`, `a`, `b`. -/
theorem find_base_lapi_url_form_witness :
    find_base_lapi_url ("s://a/b".data) =
      .parsed ⟨"s".data, "a".data, some ("/b".data)⟩ ∧
    find_base_lapi_url ("s://".data) = .failed errNoAuthority := by
  have h := find_base_lapi_url_form ("s".data) ("a".data) ("b".data)
    (by decide) (by decide) (by decide)
  exact ⟨h.1, h.2⟩

/-- C7: `crowdsec_to_cache` abandons the write whenever the non-blocking
try-acquire does not succeed (busy or any other failure): no store call,
cache untouched, nothing released; once acquired, a store with expiry
`now + cache_timeout` is issued and the mutex is released whether or not
the store succeeded; and the verdict of `crowdsec_query` never depends
on the mutex or store outcomes, so no cache-write failure is surfaced. -/
theorem cache_put_best_effort (sconf : CrowdsecServerRec)
    (conf : CrowdsecConfigRec) (r : RequestInfo) (env : Env)
    (response : List Char) (cache : CacheState)
    (hmx : sconf.hasCacheMutex = true) :
    (∀ m, m ≠ MutexOutcome.acquired →
      crowdsec_to_cache sconf r { env with mutex := m } response cache =
        ⟨none, false, cache⟩) ∧
    (env.mutex = .acquired →
      (crowdsec_to_cache sconf r env response cache).storeCall =
        some (crowdsec_cache_key r.ip, env.now + sconf.cache_timeout,
          response) ∧
      (crowdsec_to_cache sconf r env response cache).released = true) ∧
    (∀ m s,
      (crowdsec_query sconf conf r { env with mutex := m, storeOk := s }
          cache).status =
        (crowdsec_query sconf conf r env cache).status ∧
      (crowdsec_query sconf conf r { env with mutex := m, storeOk := s }
          cache).custom =
        (crowdsec_query sconf conf r env cache).custom) := by
  refine ⟨?_, ?_, ?_⟩
  · intro m hm
    cases m with
    | acquired => exact absurd rfl hm
    | busy => simp [crowdsec_to_cache, hmx]
    | err => simp [crowdsec_to_cache, hmx]
  · intro h
    simp [crowdsec_to_cache, hmx, h]
  · intro m s
    obtain ⟨now, ret, mx, st, scs, rs, ss, cap, ee, ei⟩ := env
    cases hu : sconf.url with
    | none => simp [crowdsec_query, hu]
    | some u =>
      cases hrm : r.main with
      | true => simp [crowdsec_query, hu, hrm]
      | false =>
        simp only [crowdsec_query, hu, hrm, Bool.false_eq_true, if_false]
        have hfc : crowdsec_from_cache sconf
            ⟨now, ret, m, s, scs, rs, ss, cap, ee, ei⟩ =
            crowdsec_from_cache sconf
            ⟨now, ret, mx, st, scs, rs, ss, cap, ee, ei⟩ := rfl
        rw [hfc]
        cases hfc2 : crowdsec_from_cache sconf
            ⟨now, ret, mx, st, scs, rs, ss, cap, ee, ei⟩ with
        | some resp => exact ⟨rfl, rfl⟩
        | none =>
          have hpx : crowdsec_proxy conf u
              ⟨now, ret, m, s, scs, rs, ss, cap, ee, ei⟩ =
              crowdsec_proxy conf u
              ⟨now, ret, mx, st, scs, rs, ss, cap, ee, ei⟩ := rfl
          rw [hpx]
          cases hp : crowdsec_proxy conf u
              ⟨now, ret, mx, st, scs, rs, ss, cap, ee, ei⟩ with
          | failStatus c => exact ⟨rfl, rfl⟩
          | okResponse resp => exact ⟨rfl, rfl⟩

/-- Witness for C7 at a concrete scope, request and environment. -/
theorem cache_put_best_effort_witness :
    crowdsec_to_cache sconfFX reqFX { envBase with mutex := .busy }
        ("null".data) [] = ⟨none, false, []⟩ ∧
    (crowdsec_to_cache sconfFX reqFX envBase ("null".data) []).storeCall =
      some ("1.2.3.4".data, 1000 + 60000000, "null".data) ∧
    (crowdsec_query sconfFX confBlockFB reqFX
        { envBase with mutex := .busy, storeOk := false } []).status =
      (crowdsec_query sconfFX confBlockFB reqFX envBase []).status := by
  have h := cache_put_best_effort sconfFX confBlockFB reqFX envBase
    ("null".data) [] (by decide)
  refine ⟨h.1 .busy (by decide), ?_, (h.2.2 .busy false).1⟩
  have h2 := h.2.1 (by decide)
  rw [h2.1]
  decide

/-- C1 counterexample: on a cache miss with the upstream run failing
with 502 under fallback BLOCK, the synthesized classification body IS
written to the shared cache — the cache state after `crowdsec_query` is
not the state before it, and a store call was issued. -/
theorem fallback_verdict_cached_counterexample :
    (crowdsec_query sconfFX confBlockFB reqFX envFallbackFX []).cacheAfter ≠
      ([] : CacheState) ∧
    (crowdsec_query sconfFX confBlockFB reqFX envFallbackFX []).storeCall ≠
      none ∧
    (crowdsec_query sconfFX confBlockFB reqFX envFallbackFX []).cacheAfter =
      [⟨"1.2.3.4".data,
        synthBlockBody (targetUrl uFX envFallbackFX) 502,
        1000 + 60000000⟩] := by
  decide

/-- C1 (amended): on an enabled route with a cache miss, when the
upstream run fails with a non-OK, non-404 status and the fallback policy
is BLOCK or ALLOW, the synthesized classification body (the BLOCK error
JSON, or the ALLOW sentinel `"null"`) is passed to the shared-cache
write path exactly as a genuine upstream answer would be: the cache
state and the store call after `crowdsec_query` are those of
`crowdsec_to_cache` run on that body. -/
theorem fallback_verdict_write_through (sconf : CrowdsecServerRec)
    (conf : CrowdsecConfigRec) (r : RequestInfo) (env : Env)
    (cache : CacheState) (u : UrlParts)
    (hu : sconf.url = some u) (hm : r.main = false)
    (hmiss : crowdsec_from_cache sconf env = none)
    (hcreate : env.subreqCreateStatus = HTTP_OK)
    (hrun : env.runStatus ≠ OK) (h404 : env.runStatus ≠ HTTP_NOT_FOUND)
    (hfb : conf.fallback = .block ∨ conf.fallback = .allow) :
    (crowdsec_query sconf conf r env cache).cacheAfter =
      (crowdsec_to_cache sconf r env
        (if conf.fallback = .block
         then synthBlockBody (targetUrl u env) env.runStatus
         else nullStr) cache).cacheAfter ∧
    (crowdsec_query sconf conf r env cache).storeCall =
      (crowdsec_to_cache sconf r env
        (if conf.fallback = .block
         then synthBlockBody (targetUrl u env) env.runStatus
         else nullStr) cache).storeCall := by
  have hguard : ¬(env.runStatus = HTTP_NOT_FOUND ∨
      (env.runStatus = OK ∧ env.subreqStatus = HTTP_NOT_FOUND)) := by
    rintro (h | ⟨h, -⟩)
    · exact h404 h
    · exact hrun h
  rcases hfb with hfb | hfb <;>
    simp [crowdsec_query, hu, hm, hmiss, crowdsec_proxy, hcreate, hguard,
      hrun, h404, hfb]

/-- Witness for C1's amended statement at a concrete request. -/
theorem fallback_verdict_write_through_witness :
    (crowdsec_query sconfFX confBlockFB reqFX envFallbackFX []).cacheAfter =
      (crowdsec_to_cache sconfFX reqFX envFallbackFX
        (synthBlockBody (targetUrl uFX envFallbackFX) 502) []).cacheAfter := by
  have h := fallback_verdict_write_through sconfFX confBlockFB reqFX
    envFallbackFX [] uFX (by decide) (by decide) (by decide) (by decide)
    (by decide) (by decide) (Or.inl (by decide))
  rw [h.1]
  decide

/-- C2 (the code side of the bug): `create_crowdsec_dir_config`
zero-fills the config, so an unconfigured `CrowdsecBlockedHTTPCode` is
0, not 429; a request whose IP classifies as blocked on such a route
gets status 0 from `crowdsec_query` — which equals `OK`, so
`crowdsec_check_access` DECLINEs and the blocked request sails through.
The parse-time allow-list half of the claim does hold: 403, 429 and 500
are accepted and everything else is rejected. -/
theorem default_blocked_code_bug :
    create_crowdsec_dir_config.blockedhttpcode = 0 ∧
    create_crowdsec_dir_config.blockedhttpcode ≠ HTTP_TOO_MANY_REQUESTS ∧
    (set_crowdsec_blockedhttpcode create_crowdsec_dir_config
      ("403".data)).isErr = false ∧
    (set_crowdsec_blockedhttpcode create_crowdsec_dir_config
      ("429".data)).isErr = false ∧
    (set_crowdsec_blockedhttpcode create_crowdsec_dir_config
      ("500".data)).isErr = false ∧
    (set_crowdsec_blockedhttpcode create_crowdsec_dir_config
      ("404".data)).isErr = true ∧
    (set_crowdsec_blockedhttpcode create_crowdsec_dir_config
      ("302".data)).isErr = true ∧
    (crowdsec_query sconfFX confDefaultEnabled reqFX envHitBlockedFX
      []).status = 0 ∧
    OK = 0 ∧
    (crowdsec_check_access sconfFX confDefaultEnabled reqFX envHitBlockedFX
      []).status = DECLINED := by
  decide

/-- C3: whenever a classification string is obtained — from the cache or
from a successful upstream call — the literal `"null"` yields status OK
(allow) with no custom response; any other non-empty string takes the
blocked path: with no location expression the status is the configured
blocked code; with a location expression, an evaluation error yields 500
and a successful evaluation yields the blocked code together with an
`ap_custom_response` to the computed location. -/
theorem classification_sentinel (sconf : CrowdsecServerRec)
    (conf : CrowdsecConfigRec) (r : RequestInfo) (env : Env)
    (cache : CacheState) (u : UrlParts) (resp : List Char)
    (hu : sconf.url = some u) (hm : r.main = false)
    (hobt : crowdsec_from_cache sconf env = some resp ∨
      (crowdsec_from_cache sconf env = none ∧
        crowdsec_proxy conf u env = .okResponse resp))
    (_hne : resp ≠ []) :
    (resp = nullStr →
      (crowdsec_query sconf conf r env cache).status = OK ∧
      (crowdsec_query sconf conf r env cache).custom = none) ∧
    (resp ≠ nullStr →
      (conf.location = none →
        (crowdsec_query sconf conf r env cache).status =
          conf.blockedhttpcode ∧
        (crowdsec_query sconf conf r env cache).custom = none) ∧
      (∀ e, conf.location = some e →
        (∀ msg, env.exprEval = .evalErr msg →
          (crowdsec_query sconf conf r env cache).status =
            HTTP_INTERNAL_SERVER_ERROR ∧
          (crowdsec_query sconf conf r env cache).custom = none) ∧
        (∀ loc, env.exprEval = .evalOk loc →
          (crowdsec_query sconf conf r env cache).status =
            conf.blockedhttpcode ∧
          (crowdsec_query sconf conf r env cache).custom =
            some (conf.blockedhttpcode, loc)))) := by
  have hsc : (crowdsec_query sconf conf r env cache).status =
      (classifyResponse conf env resp).1 ∧
      (crowdsec_query sconf conf r env cache).custom =
      (classifyResponse conf env resp).2 := by
    rcases hobt with hobt | ⟨hmiss, hok⟩
    · simp [crowdsec_query, hu, hm, hobt]
    · simp [crowdsec_query, hu, hm, hmiss, hok]
  rw [hsc.1, hsc.2]
  constructor
  · intro hn
    simp [classifyResponse, hn]
  · intro hn
    constructor
    · intro hloc
      simp [classifyResponse, hn, hloc]
    · intro e hloc
      constructor
      · intro msg hee
        simp [classifyResponse, hn, hloc, hee]
      · intro loc hee
        simp [classifyResponse, hn, hloc, hee]

/-- Witness for C3: a cache hit on `"null"` is allowed, and a cache hit
on a blocked body with no location yields the configured 429. -/
theorem classification_sentinel_witness :
    (crowdsec_query sconfFX confBlockFB reqFX envHitNullFX []).status =
      OK ∧
    (crowdsec_query sconfFX confBlockFB reqFX envHitBlockedFX []).status =
      429 := by
  have h1 := classification_sentinel sconfFX confBlockFB reqFX envHitNullFX
    [] uFX nullStr (by decide) (by decide) (Or.inl (by decide)) (by decide)
  have h2 := classification_sentinel sconfFX confBlockFB reqFX
    envHitBlockedFX [] uFX blockedBody (by decide) (by decide)
    (Or.inl (by decide)) (by decide)
  exact ⟨(h1.1 rfl).1, ((h2.2 (by decide)).1 (by decide)).1⟩

/-- C4: on a cache miss, a 404 from the upstream call — whether as the
call's failure status or as the subrequest's response status under an OK
call — makes `crowdsec_query` return 500 with no cache write, and the
result is the same for every fallback policy (the fallback mapping is
never consulted). -/
theorem notfound_always_fatal (sconf : CrowdsecServerRec)
    (conf : CrowdsecConfigRec) (r : RequestInfo) (env : Env)
    (cache : CacheState) (u : UrlParts)
    (hu : sconf.url = some u) (hm : r.main = false)
    (hmiss : crowdsec_from_cache sconf env = none)
    (hcreate : env.subreqCreateStatus = HTTP_OK)
    (h404 : env.runStatus = HTTP_NOT_FOUND ∨
      (env.runStatus = OK ∧ env.subreqStatus = HTTP_NOT_FOUND)) :
    crowdsec_query sconf conf r env cache =
      ⟨HTTP_INTERNAL_SERVER_ERROR, none, cache, true, true, none⟩ ∧
    (∀ f, crowdsec_query sconf { conf with fallback := f } r env cache =
      crowdsec_query sconf conf r env cache) := by
  have hpx : ∀ c : CrowdsecConfigRec,
      crowdsec_proxy c u env = .failStatus HTTP_INTERNAL_SERVER_ERROR := by
    intro c
    unfold crowdsec_proxy
    rw [if_neg (by simp [hcreate]), if_pos h404]
  constructor
  · simp [crowdsec_query, hu, hm, hmiss, hpx]
  · intro f
    simp [crowdsec_query, hu, hm, hmiss, hpx]

/-- Witness for C4 at a concrete 404 run with fallback BLOCK. -/
theorem notfound_always_fatal_witness :
    (crowdsec_query sconfFX confBlockFB reqFX env404FX []).status =
      HTTP_INTERNAL_SERVER_ERROR ∧
    (crowdsec_query sconfFX confAllowFB reqFX env404FX []).status =
      HTTP_INTERNAL_SERVER_ERROR := by
  have h := notfound_always_fatal sconfFX confBlockFB reqFX env404FX []
    uFX (by decide) (by decide) (by decide) (by decide)
    (Or.inl (by decide))
  have h2 := notfound_always_fatal sconfFX confAllowFB reqFX env404FX []
    uFX (by decide) (by decide) (by decide) (by decide)
    (Or.inl (by decide))
  rw [h.1, h2.1]
  exact ⟨rfl, rfl⟩

/-- C9: with no `CrowdsecURL` configured for the server scope, even an
explicitly enabled route declines: the access checker returns DECLINED,
the query declined without consulting the cache or calling upstream,
the cache is untouched and no error verdict or custom response is
produced. -/
theorem no_url_declines (sconf : CrowdsecServerRec)
    (conf : CrowdsecConfigRec) (r : RequestInfo) (env : Env)
    (cache : CacheState)
    (hurl : sconf.url = none) (hen : conf.enable = true)
    (hm : r.main = false) :
    crowdsec_check_access sconf conf r env cache =
      ⟨DECLINED, some ⟨DECLINED, none, cache, false, false, none⟩⟩ := by
  simp [crowdsec_check_access, hm, hen, crowdsec_query, hurl, DECLINED, OK]

/-- Witness for C9 at the default (url-less) server config with an
enabled route. -/
theorem no_url_declines_witness :
    crowdsec_check_access create_crowdsec_server_config confDefaultEnabled
        reqFX envBase [] =
      ⟨DECLINED, some ⟨DECLINED, none, [], false, false, none⟩⟩ :=
  no_url_declines create_crowdsec_server_config confDefaultEnabled reqFX
    envBase [] (by decide) (by decide) (by decide)

/-- C10: the capture filter records every brigade it sees — a
zero-length brigade becomes the empty string, not NULL; the fatal
"response not recorded" 500 fires only when the filter never ran
(`captured = none`); a recorded empty body is returned as the
classification and, differing from `"null"`, takes the blocked path
(here with no location expression: the configured blocked code, no
custom response). -/
theorem empty_response_blocked (fconf : CrowdsecConfigRec)
    (brigade : List (List Char)) (sconf : CrowdsecServerRec)
    (conf : CrowdsecConfigRec) (r : RequestInfo) (env : Env)
    (cache : CacheState) (u : UrlParts)
    (hu : sconf.url = some u) (hm : r.main = false)
    (hmiss : crowdsec_from_cache sconf env = none)
    (hcreate : env.subreqCreateStatus = HTTP_OK)
    (hrun : env.runStatus = OK) (hss : env.subreqStatus ≠ HTTP_NOT_FOUND) :
    (crowdsec_out_filter fconf brigade).response = some brigade.flatten ∧
    (env.captured = none →
      crowdsec_proxy conf u env = .failStatus HTTP_INTERNAL_SERVER_ERROR) ∧
    (env.captured = some [] →
      crowdsec_proxy conf u env = .okResponse [] ∧
      (conf.location = none →
        (crowdsec_query sconf conf r env cache).status =
          conf.blockedhttpcode ∧
        (crowdsec_query sconf conf r env cache).custom = none)) := by
  refine ⟨rfl, ?_, ?_⟩
  · intro hcap
    simp [crowdsec_proxy, hcreate, hrun, hss, hcap, OK, HTTP_NOT_FOUND]
  · intro hcap
    have hss404 : ¬env.subreqStatus = (404 : Int) := hss
    have hpx : crowdsec_proxy conf u env = .okResponse [] := by
      simp [crowdsec_proxy, hcreate, hrun, hss, hss404, hcap, OK,
        HTTP_NOT_FOUND]
    refine ⟨hpx, fun hloc => ?_⟩
    have hne : ([] : List Char) ≠ nullStr := by decide
    simp [crowdsec_query, hu, hm, hmiss, hpx, classifyResponse, hne, hloc]

/-- Witness for C10: empty brigade recorded as empty string; a concrete
empty captured body takes the blocked path with code 429. -/
theorem empty_response_blocked_witness :
    (crowdsec_out_filter confBlockFB []).response = some [] ∧
    crowdsec_proxy confBlockFB uFX envEmptyFX = .okResponse [] ∧
    (crowdsec_query sconfFX confBlockFB reqFX envEmptyFX []).status = 429 := by
  have h := empty_response_blocked confBlockFB [] sconfFX confBlockFB reqFX
    envEmptyFX [] uFX (by decide) (by decide) (by decide) (by decide)
    (by decide) (by decide)
  have h3 := h.2.2 (by decide)
  exact ⟨h.1, h3.1, (h3.2 (by decide)).1⟩

end Crowdsec
